import Mathlib

/-!
Shallow embedding of the emission-calculation engine of the
carbon_footprint_mvp repository (src/core.py), together with the
front-end call sites (src/cli.py, src/chatbot.py) that reach it.
Python floats are modelled as exact rationals, pandas data frames as
lists of records, and fallible Python code as Except values over the
exception kinds the code can raise.  The geodesic distance function of
the external geopy library is an explicit parameter of every operation
that uses it.
-/

namespace CarbonMVP

/-- Python exception kinds the modelled code can raise. -/
inductive Err where
  | typeError (msg : String)
  | valueError (msg : String)
  | keyError (msg : String)
  | attributeError (msg : String)
  | zeroDivisionError
deriving DecidableEq, Repr

/-- True when a modelled Python call returned normally. -/
def isOkE {α : Type} : Except Err α → Bool
  | .ok _ => true
  | .error _ => false

/-- Python float division, which raises ZeroDivisionError on a zero divisor. -/
def pyDiv (a b : ℚ) : Except Err ℚ :=
  if b = 0 then .error .zeroDivisionError else .ok (a / b)

/-- Python int() applied to a float: truncation toward zero. -/
def pyInt (q : ℚ) : ℤ := if 0 ≤ q then ⌊q⌋ else ⌈q⌉

/-- charListLead p s: the list p is an initial run of the list s. -/
def charListLead : List Char → List Char → Bool
  | [], _ => true
  | _ :: _, [] => false
  | a :: as, b :: bs => a == b && charListLead as bs

/-- charListSub p s: p occurs contiguously inside s. -/
def charListSub (p : List Char) : List Char → Bool
  | [] => charListLead p []
  | c :: cs => charListLead p (c :: cs) || charListSub p cs

/-- Python substring containment, pat in s. -/
def strIn (pat s : String) : Bool := charListSub pat.toList s.toList

/-- One row of a loaded reference table.  A missing (NaN) text cell is
none; the GHG Conversion Factor 2024 cell is kept as the value that
pd.to_numeric with coercion would produce, none for missing or
non-numeric. -/
structure Record where
  level1 : Option String
  level2 : Option String
  level3 : Option String
  uom : Option String
  ghg2024 : Option ℚ
deriving DecidableEq, Repr

/-- str(cell) for a UOM cell: NaN prints as the string nan. -/
def uomStr : Option String → String
  | none => "nan"
  | some s => s

/-- pandas Series.str.contains(pat, case=False, na=False) on a cell:
case-insensitive substring match, false on a missing cell.  (pandas
compiles the pattern as a regex; none of the patterns used by the
engine rely on regex metacharacter semantics beyond plain text, so the
match is modelled as plain substring search.) -/
def containsCI (cell : Option String) (pat : String) : Bool :=
  match cell with
  | none => false
  | some s => strIn pat.toLower s.toLower

/-- Series equality of a text cell against a Python value: a NaN cell
compares unequal to everything, and comparing against NaN is False
everywhere. -/
def eqCell (cell v : Option String) : Bool :=
  match cell, v with
  | some a, some b => a == b
  | _, _ => false

/-- The loaded reference tables of an EmissionCalculator instance
(DB1 sheet and the three DB2 sheets). -/
structure Calc where
  vehicle_emissions : List Record
  materials : List Record
  waste_methods : List Record
  delivery_modes : List Record
deriving DecidableEq, Repr

/-- Interior dimensions of one vehicle class, in meters. -/
structure Dims where
  length : ℚ
  width : ℚ
  height : ℚ
deriving DecidableEq, Repr

/-- The fixed self.vehicle_dimensions table from core.py. -/
def vehicle_dimensions : List (String × Dims) :=
  [("Van - Class I", ⟨5/2, 17/10, 7/5⟩),
   ("Van - Class II", ⟨3, 9/5, 8/5⟩),
   ("Van - Class III", ⟨4, 2, 9/5⟩),
   ("Truck - Small", ⟨6, 12/5, 12/5⟩),
   ("Truck - Medium", ⟨8, 12/5, 13/5⟩),
   ("Truck - Large", ⟨68/5, 12/5, 27/10⟩),
   ("Container - 20ft", ⟨59/10, 47/20, 239/100⟩),
   ("Container - 40ft", ⟨12, 47/20, 239/100⟩),
   ("Aircraft Container", ⟨317/100, 223/100, 223/100⟩)]

/-- Coordinates as (latitude, longitude). -/
abbrev Coord : Type := ℚ × ℚ

structure BoxDimensions where
  length : ℚ
  width : ℚ
  height : ℚ
  volume : ℚ
deriving DecidableEq, Repr

structure LoadingCapacity where
  total_boxes : ℤ
  rows : ℤ
  columns : ℤ
  layers : ℤ
  utilization_percentage : ℚ
  remaining_space : ℚ
deriving DecidableEq, Repr

structure TransportSegment where
  mode : String
  vehicle : Option String
  distance : ℚ
  emissions : ℚ
deriving DecidableEq, Repr

/-- The breakdown dict of an EmissionResult; its keys are fixed. -/
structure Breakdown where
  transport : ℚ
  packaging : ℚ
  waste : ℚ
deriving DecidableEq, Repr

structure EmissionResult where
  segments : List TransportSegment
  material : String
  co2e : ℚ
  breakdown : Breakdown
  total_distance : ℚ
  total_time : ℚ
  box_info : Option BoxDimensions
  loading_info : List (Option String × LoadingCapacity)
deriving DecidableEq, Repr

/-- One input route segment dict of calculate_multi_modal_emissions. -/
structure SegIn where
  origin : Coord
  destination : Coord
  mode : String
deriving DecidableEq, Repr

/-- Box dimensions dict at the interface boundary (centimeters). -/
structure BoxDimsIn where
  length : ℚ
  width : ℚ
  height : ℚ
deriving DecidableEq, Repr

/-- Dictionary access self.vehicle_dimensions[vehicle_type]; a NaN
vehicle name (modelled as none) misses every string key. -/
def dictGetDims : Option String → Except Err Dims
  | none => .error (.keyError "nan")
  | some v =>
    match vehicle_dimensions.lookup v with
    | none => .error (.keyError v)
    | some d => .ok d

/-- calculate_box_loading from core.py: per-axis counts by int()
truncation of interior divided by box dimension, then volume figures. -/
def calculate_box_loading (box_dimensions : BoxDimensions)
    (vehicle_type : Option String) : Except Err LoadingCapacity :=
  match dictGetDims vehicle_type with
  | .error e => .error e
  | .ok vehicle_dim =>
    match pyDiv vehicle_dim.width box_dimensions.width with
    | .error e => .error e
    | .ok qr =>
      match pyDiv vehicle_dim.length box_dimensions.length with
      | .error e => .error e
      | .ok qc =>
        match pyDiv vehicle_dim.height box_dimensions.height with
        | .error e => .error e
        | .ok ql =>
          let rows := pyInt qr
          let columns := pyInt qc
          let layers := pyInt ql
          let total_boxes := rows * columns * layers
          let vehicle_volume :=
            vehicle_dim.length * vehicle_dim.width * vehicle_dim.height
          let total_box_volume := (total_boxes : ℚ) * box_dimensions.volume
          match pyDiv total_box_volume vehicle_volume with
          | .error e => .error e
          | .ok u =>
            .ok { total_boxes := total_boxes, rows := rows,
                  columns := columns, layers := layers,
                  utilization_percentage := u * 100,
                  remaining_space := vehicle_volume - total_box_volume }

/-- The mode_mapping dict of _select_best_vehicle. -/
def mode_mapping : List (String × String) :=
  [("road", "Road"), ("sea", "Water"), ("air", "Air"), ("rail", "Rail")]

/-- GHG_numeric column value of a row: pd.to_numeric with coercion
followed by fillna(inf); none stands for the +infinity fill. -/
def ghgNumeric (r : Record) : Option ℚ := r.ghg2024

/-- Comparison on factor values where none is +infinity. -/
def infLe : Option ℚ → Option ℚ → Bool
  | none, none => true
  | some _, none => true
  | none, some _ => false
  | some a, some b => a ≤ b

/-- Series.idxmin over the GHG_numeric column followed by .loc: the
first row in stored order attaining the minimum, computed as a left
fold that replaces the running best only on a strictly smaller value. -/
def pickMin (best : Record) (l : List Record) : Record :=
  l.foldl (fun b x =>
    if infLe (ghgNumeric b) (ghgNumeric x) then b else x) best

/-- _select_best_vehicle from core.py.  distance and weight are
accepted (weight is converted to tonnes) but no filter uses them. -/
def select_best_vehicle (delivery_modes : List Record)
    (distance weight : ℚ) (mode : String) : Except Err (Option String) :=
  match mode_mapping.lookup mode with
  | none => .error (.keyError mode)
  | some pat =>
    match delivery_modes.filter (fun r => containsCI r.level1 pat) with
    | [] => .error (.valueError ("No vehicles found for mode: " ++ mode))
    | r :: rs =>
      let _weight_tonnes := weight / 1000
      .ok (pickMin r rs).level2

/-- The speeds dict of _calculate_segment_time, in km/h. -/
def mode_speed (m : String) : Option ℚ :=
  if m == "road" then some 60
  else if m == "rail" then some 80
  else if m == "sea" then some 30
  else if m == "air" then some 800
  else none

/-- Total function giving the fixed mode speed, used to state claims. -/
def nominal_speed (m : String) : ℚ :=
  match mode_speed m with
  | some s => s
  | none => 0

/-- _calculate_segment_time from core.py; an unknown mode raises
KeyError on the speeds dict. -/
def _calculate_segment_time (distance : ℚ) (mode : String) : Except Err ℚ :=
  match mode_speed mode with
  | none => .error (.keyError mode)
  | some s => .ok (distance / s)

/-- _calculate_transport_emissions from core.py.  Its definition
accepts only distance, weight and vehicle. -/
def _calculate_transport_emissions (c : Calc) (distance weight : ℚ)
    (vehicle : Option String) : Except Err ℚ :=
  match c.delivery_modes.filter
      (fun r => eqCell r.level3 vehicle || eqCell r.level2 vehicle) with
  | [] => .error (.valueError "Vehicle type not found in database")
  | vd :: _ =>
    match vd.ghg2024 with
    | none => .error (.valueError "Invalid GHG Conversion Factor for vehicle type")
    | some ghg_per_unit =>
      let uom := (uomStr vd.uom).toLower
      if strIn "tonne.km" uom then
        .ok (distance * ghg_per_unit * (weight / 1000))
      else if strIn "km" uom then
        .ok (distance * ghg_per_unit)
      else
        .ok (distance * ghg_per_unit * weight)

/-- The parameter names _calculate_transport_emissions accepts. -/
def transport_emissions_params : List String :=
  ["distance", "weight", "vehicle"]

/-- The keyword argument names calculate_multi_modal_emissions passes
to _calculate_transport_emissions at core.py lines 188-193. -/
def multi_modal_transport_kwargs : List String :=
  ["distance", "weight", "vehicle", "mode"]

/-- Python keyword-argument binding: a passed keyword that the callee
does not accept raises TypeError at the call. -/
def checkKwargs (accepted passed : List String) : Except Err Unit :=
  match passed.find? (fun k => !(accepted.contains k)) with
  | some k => .error (.typeError ("got an unexpected keyword argument " ++ k))
  | none => .ok ()

/-- The material_mapping dict of _get_standardized_material. -/
def material_mapping : List (String × String) :=
  [("cardboard", "Paper and board: board"),
   ("paper", "Paper and board: paper"),
   ("mixed paper", "Paper and board: mixed"),
   ("plastic", "Plastics: average plastics"),
   ("plastic film", "Plastics: average plastic film"),
   ("plastic rigid", "Plastics: average plastic rigid"),
   ("metal", "Metal: scrap metal"),
   ("aluminum", "Metal: aluminium cans and foil (excl. forming)"),
   ("steel", "Metal: steel cans"),
   ("glass", "Glass"),
   ("wood", "Wood")]

/-- _get_standardized_material from core.py. -/
def _get_standardized_material (material : String) : String :=
  match material_mapping.lookup material.toLower with
  | some m => m
  | none => material

/-- _calculate_packaging_emissions from core.py. -/
def _calculate_packaging_emissions (c : Calc) (weight : ℚ)
    (material : String) : Except Err ℚ :=
  let std_material := _get_standardized_material material
  match c.materials.filter (fun r =>
      containsCI r.level2 std_material || containsCI r.level3 std_material) with
  | [] => .error (.valueError ("Material not found in database: " ++ std_material))
  | md :: _ =>
    match md.ghg2024 with
    | none => .error (.valueError ("Invalid GHG Conversion Factor for material: " ++ std_material))
    | some ghg_factor =>
      let packaging_weight := weight * (1/10)
      let packaging_weight :=
        if strIn "tonne" (uomStr md.uom).toLower then packaging_weight / 1000
        else packaging_weight
      .ok (packaging_weight * ghg_factor)

/-- _calculate_waste_emissions from core.py: material must resolve,
then a paper/board waste row is preferred, else a generic
waste/disposal row, else zero; a non-numeric factor is also zero. -/
def _calculate_waste_emissions (c : Calc) (weight : ℚ)
    (material : String) : Except Err ℚ :=
  let std_material := _get_standardized_material material
  match c.materials.filter (fun r =>
      containsCI r.level2 std_material || containsCI r.level3 std_material) with
  | [] => .error (.valueError ("Material not found in database: " ++ std_material))
  | _ :: _ =>
    let waste_data := c.waste_methods.filter (fun r =>
      containsCI r.level2 "Paper" || containsCI r.level2 "Board" ||
      containsCI r.level3 "Paper" || containsCI r.level3 "Board")
    let waste_data :=
      if waste_data.isEmpty then
        c.waste_methods.filter (fun r =>
          containsCI r.level2 "Waste" || containsCI r.level2 "Disposal")
      else waste_data
    match waste_data with
    | [] => .ok 0
    | wd :: _ =>
      match wd.ghg2024 with
      | none => .ok 0
      | some ghg_factor =>
        let packaging_weight := weight * (1/10)
        let packaging_weight :=
          if strIn "tonne" (uomStr wd.uom).toLower then packaging_weight / 1000
          else packaging_weight
        .ok (packaging_weight * ghg_factor)

/-- Accumulators of the per-segment loop in
calculate_multi_modal_emissions. -/
structure LoopAcc where
  segments : List TransportSegment
  total_emissions : ℚ
  total_distance : ℚ
  total_time : ℚ
deriving DecidableEq, Repr

def initAcc : LoopAcc := ⟨[], 0, 0, 0⟩

/-- One iteration of the segment loop of
calculate_multi_modal_emissions: distance, vehicle selection, then the
transport-emissions call whose keyword arguments include mode, which
the callee does not accept. -/
def processSegment (c : Calc) (dist : Coord → Coord → ℚ) (weight : ℚ)
    (acc : LoopAcc) (seg : SegIn) : Except Err LoopAcc :=
  let distance := dist seg.origin seg.destination
  match select_best_vehicle c.delivery_modes distance weight seg.mode with
  | .error e => .error e
  | .ok vehicle =>
    match checkKwargs transport_emissions_params multi_modal_transport_kwargs with
    | .error e => .error e
    | .ok _ =>
      match _calculate_transport_emissions c distance weight vehicle with
      | .error e => .error e
      | .ok segment_emissions =>
        match _calculate_segment_time distance seg.mode with
        | .error e => .error e
        | .ok time =>
          .ok { segments := acc.segments ++
                  [{ mode := seg.mode, vehicle := vehicle,
                     distance := distance, emissions := segment_emissions }],
                total_emissions := acc.total_emissions + segment_emissions,
                total_distance := acc.total_distance + distance,
                total_time := acc.total_time + time }

/-- The for-loop over route_segments. -/
def segLoop (c : Calc) (dist : Coord → Coord → ℚ) (weight : ℚ)
    (acc : LoopAcc) : List SegIn → Except Err LoopAcc
  | [] => .ok acc
  | seg :: rest =>
    match processSegment c dist weight acc seg with
    | .error e => .error e
    | .ok acc2 => segLoop c dist weight acc2 rest

/-- Association update used for the loading_info dict. -/
def dictSet (l : List (Option String × LoadingCapacity))
    (k : Option String) (v : LoadingCapacity) :
    List (Option String × LoadingCapacity) :=
  if l.any (fun p => p.1 == k) then
    l.map (fun p => if p.1 == k then (k, v) else p)
  else l ++ [(k, v)]

/-- The loading-capacity loop over computed segments. -/
def boxLoadLoop (bi : BoxDimensions)
    (li : List (Option String × LoadingCapacity)) :
    List TransportSegment →
    Except Err (List (Option String × LoadingCapacity))
  | [] => .ok li
  | seg :: rest =>
    match calculate_box_loading bi seg.vehicle with
    | .error e => .error e
    | .ok lc => boxLoadLoop bi (dictSet li seg.vehicle lc) rest

/-- The optional box-dimensions block of
calculate_multi_modal_emissions: cm-to-m conversion, then loading
capacity for each vehicle used across the segments. -/
def boxPart (segments : List TransportSegment) :
    Option BoxDimsIn →
    Except Err (Option BoxDimensions × List (Option String × LoadingCapacity))
  | none => .ok (none, [])
  | some bd =>
    let length_m := bd.length / 100
    let width_m := bd.width / 100
    let height_m := bd.height / 100
    let box_info : BoxDimensions :=
      { length := length_m, width := width_m, height := height_m,
        volume := length_m * width_m * height_m }
    match boxLoadLoop box_info [] segments with
    | .error e => .error e
    | .ok li => .ok (some box_info, li)

/-- calculate_multi_modal_emissions from core.py. -/
def calculate_multi_modal_emissions (c : Calc)
    (dist : Coord → Coord → ℚ) (route_segments : List SegIn)
    (weight : ℚ) (material : String)
    (box_dimensions : Option BoxDimsIn) : Except Err EmissionResult :=
  match segLoop c dist weight initAcc route_segments with
  | .error e => .error e
  | .ok acc =>
    match _calculate_packaging_emissions c weight material with
    | .error e => .error e
    | .ok packaging_emissions =>
      match _calculate_waste_emissions c weight material with
      | .error e => .error e
      | .ok waste_emissions =>
        match boxPart acc.segments box_dimensions with
        | .error e => .error e
        | .ok (box_info, loading_info) =>
          .ok { segments := acc.segments,
                material := material,
                co2e := acc.total_emissions + packaging_emissions + waste_emissions,
                breakdown := { transport := acc.total_emissions,
                               packaging := packaging_emissions,
                               waste := waste_emissions },
                total_distance := acc.total_distance,
                total_time := acc.total_time,
                box_info := box_info,
                loading_info := loading_info }

/-- One route-option segment dict; the nearest-port / nearest-airport
waypoints may be the Python value None. -/
structure RouteSeg where
  mode : String
  origin : Option Coord
  destination : Option Coord
  description : String
deriving DecidableEq, Repr

structure RouteOption where
  name : String
  description : String
  segments : List RouteSeg
  total_time : ℚ
  total_distance : ℚ
  estimated_emissions : ℚ
  cost_factor : ℚ
deriving DecidableEq, Repr

/-- The dict returned by generate_route_options. -/
structure RouteOptions where
  eco : RouteOption
  standard : RouteOption
  express : RouteOption
deriving DecidableEq, Repr

/-- Speed entries of the mode_characteristics dict. -/
def mode_char_speed (m : String) : Option ℚ :=
  if m == "road" then some 60
  else if m == "rail" then some 80
  else if m == "sea" then some 30
  else if m == "air" then some 800
  else none

/-- Emission-factor entries of the mode_characteristics dict. -/
def mode_char_emission_factor (m : String) : Option ℚ :=
  if m == "road" then some 1
  else if m == "rail" then some (2/5)
  else if m == "sea" then some (1/5)
  else if m == "air" then some (14/5)
  else none

/-- geopy Point construction applied to a route-option waypoint: the
library normalizes a None location with float(latitude or 0.0), so
Point(None) is Point(0, 0, 0) and a None waypoint silently becomes the
null-island coordinate (0, 0). -/
def pointOf : Option Coord → Coord
  | some p => p
  | none => (0, 0)

/-- geopy geodesic applied to route-option waypoints: both endpoints
are normalized through Point construction, so a None waypoint is
silently measured as (0, 0) and no error is raised. -/
def geodesicE (dist : Coord → Coord → ℚ) (a b : Option Coord) :
    Except Err ℚ :=
  .ok (dist (pointOf a) (pointOf b))

/-- The loop of _calculate_route_time. -/
def routeTimeLoop (dist : Coord → Coord → ℚ) (total : ℚ) :
    List RouteSeg → Except Err ℚ
  | [] => .ok total
  | s :: rest =>
    match geodesicE dist s.origin s.destination with
    | .error e => .error e
    | .ok d =>
      match mode_char_speed s.mode with
      | none => .error (.keyError s.mode)
      | some sp => routeTimeLoop dist (total + d / sp) rest

/-- _calculate_route_time from core.py. -/
def _calculate_route_time (dist : Coord → Coord → ℚ)
    (segments : List RouteSeg) : Except Err ℚ :=
  routeTimeLoop dist 0 segments

/-- The loop of _calculate_route_distance. -/
def routeDistLoop (dist : Coord → Coord → ℚ) (total : ℚ) :
    List RouteSeg → Except Err ℚ
  | [] => .ok total
  | s :: rest =>
    match geodesicE dist s.origin s.destination with
    | .error e => .error e
    | .ok d => routeDistLoop dist (total + d) rest

/-- _calculate_route_distance from core.py. -/
def _calculate_route_distance (dist : Coord → Coord → ℚ)
    (segments : List RouteSeg) : Except Err ℚ :=
  routeDistLoop dist 0 segments

/-- The loop of _estimate_route_emissions. -/
def routeEmisLoop (dist : Coord → Coord → ℚ) (total : ℚ) :
    List RouteSeg → Except Err ℚ
  | [] => .ok total
  | s :: rest =>
    match geodesicE dist s.origin s.destination with
    | .error e => .error e
    | .ok d =>
      match mode_char_emission_factor s.mode with
      | none => .error (.keyError s.mode)
      | some f => routeEmisLoop dist (total + d * f) rest

/-- _estimate_route_emissions from core.py. -/
def _estimate_route_emissions (dist : Coord → Coord → ℚ)
    (segments : List RouteSeg) : Except Err ℚ :=
  routeEmisLoop dist 0 segments

/-- _calculate_midpoint from core.py. -/
def _calculate_midpoint (p1 p2 : Coord) : Coord :=
  ((p1.1 + p2.1) / 2, (p1.2 + p2.2) / 2)

/-- _find_nearest_port from core.py: the body is pass, so every call
returns None. -/
def _find_nearest_port (_location : Coord) : Option Coord := none

/-- _find_nearest_airport from core.py: the body is pass, so every
call returns None. -/
def _find_nearest_airport (_location : Coord) : Option Coord := none

/-- _generate_eco_route from core.py. -/
def _generate_eco_route (dist : Coord → Coord → ℚ)
    (origin destination : Coord) (distance : ℚ) : Except Err RouteOption :=
  let segments : List RouteSeg :=
    if distance < 800 then
      [⟨"rail", some origin, some destination, "Direct rail transport"⟩]
    else
      let _midpoint := _calculate_midpoint origin destination
      [⟨"road", some origin, _find_nearest_port origin,
        "Road transport to port"⟩,
       ⟨"sea", _find_nearest_port origin, _find_nearest_port destination,
        "Sea freight"⟩,
       ⟨"road", _find_nearest_port destination, some destination,
        "Road transport from port"⟩]
  match _calculate_route_time dist segments with
  | .error e => .error e
  | .ok total_time =>
    match _calculate_route_distance dist segments with
    | .error e => .error e
    | .ok total_distance =>
      match _estimate_route_emissions dist segments with
      | .error e => .error e
      | .ok estimated_emissions =>
        .ok { name := "Eco-Friendly Route",
              description :=
                "Optimized for lowest emissions using rail and sea transport",
              segments := segments, total_time := total_time,
              total_distance := total_distance,
              estimated_emissions := estimated_emissions,
              cost_factor := 4/5 }

/-- _generate_standard_route from core.py. -/
def _generate_standard_route (dist : Coord → Coord → ℚ)
    (origin destination : Coord) (distance : ℚ) : Except Err RouteOption :=
  let segments : List RouteSeg :=
    if distance < 500 then
      [⟨"road", some origin, some destination, "Direct road transport"⟩]
    else
      let midpoint := _calculate_midpoint origin destination
      [⟨"road", some origin, some midpoint, "Road transport first leg"⟩,
       ⟨"rail", some midpoint, some destination, "Rail transport second leg"⟩]
  match _calculate_route_time dist segments with
  | .error e => .error e
  | .ok total_time =>
    match _calculate_route_distance dist segments with
    | .error e => .error e
    | .ok total_distance =>
      match _estimate_route_emissions dist segments with
      | .error e => .error e
      | .ok estimated_emissions =>
        .ok { name := "Standard Route",
              description := "Balanced option using road and rail transport",
              segments := segments, total_time := total_time,
              total_distance := total_distance,
              estimated_emissions := estimated_emissions,
              cost_factor := 1 }

/-- _generate_express_route from core.py. -/
def _generate_express_route (dist : Coord → Coord → ℚ)
    (origin destination : Coord) (distance : ℚ) : Except Err RouteOption :=
  let segments : List RouteSeg :=
    if distance < 300 then
      [⟨"road", some origin, some destination, "Express road transport"⟩]
    else
      [⟨"road", some origin, _find_nearest_airport origin,
        "Road transport to airport"⟩,
       ⟨"air", _find_nearest_airport origin, _find_nearest_airport destination,
        "Air freight"⟩,
       ⟨"road", _find_nearest_airport destination, some destination,
        "Road transport from airport"⟩]
  match _calculate_route_time dist segments with
  | .error e => .error e
  | .ok total_time =>
    match _calculate_route_distance dist segments with
    | .error e => .error e
    | .ok total_distance =>
      match _estimate_route_emissions dist segments with
      | .error e => .error e
      | .ok estimated_emissions =>
        .ok { name := "Express Route",
              description :=
                "Fastest option using air transport for long distances",
              segments := segments, total_time := total_time,
              total_distance := total_distance,
              estimated_emissions := estimated_emissions,
              cost_factor := 5/2 }

/-- generate_route_options from core.py; the weight argument is
accepted but never used.  The three dict values are evaluated in
source order, so the first raising generator determines the error. -/
def generate_route_options (dist : Coord → Coord → ℚ)
    (origin destination : Coord) (weight : ℚ) : Except Err RouteOptions :=
  let distance := dist origin destination
  match _generate_eco_route dist origin destination distance with
  | .error e => .error e
  | .ok eco =>
    match _generate_standard_route dist origin destination distance with
    | .error e => .error e
    | .ok standard =>
      match _generate_express_route dist origin destination distance with
      | .error e => .error e
      | .ok express => .ok ⟨eco, standard, express⟩

/-- The attribute names defined on the EmissionCalculator class in
core.py (its methods). -/
def emission_calculator_methods : List String :=
  ["__init__", "_load_data", "calculate_box_loading",
   "calculate_multi_modal_emissions", "_select_best_vehicle",
   "_calculate_segment_time", "_calculate_transport_emissions",
   "_get_standardized_material", "_calculate_packaging_emissions",
   "_calculate_waste_emissions", "generate_route_options",
   "_generate_eco_route", "_generate_standard_route",
   "_generate_express_route", "_calculate_midpoint",
   "_calculate_route_time", "_calculate_route_distance",
   "_estimate_route_emissions", "_find_nearest_port",
   "_find_nearest_airport"]

/-- Python attribute lookup on an EmissionCalculator instance: a name
that is not a method of the class raises AttributeError.  (Instances
also carry the data attributes set in __init__, none of which is a
front-end entry point.) -/
def getattrEmissionCalculator (name : String) : Except Err String :=
  if emission_calculator_methods.contains name then .ok name
  else .error (.attributeError
    ("EmissionCalculator object has no attribute " ++ name))

/-- The attribute access performed by src/cli.py line 21 and
src/chatbot.py line 203 before any argument is evaluated into a
calculation. -/
def front_end_calculate_call : Except Err String :=
  getattrEmissionCalculator "calculate_emissions"

/-! Concrete data used by witnesses and counterexamples. -/

/-- A concrete distance function standing in for geopy geodesic:
every pair is 100 km apart. -/
def dist100 : Coord → Coord → ℚ := fun _ _ => 100

/-- A concrete distance function: every pair is 1000 km apart. -/
def dist1000 : Coord → Coord → ℚ := fun _ _ => 1000

/-- A concrete materials table (DB2 Sheet1) with one board row. -/
def cMaterials : List Record :=
  [⟨some "Materials", some "Paper and board: board", none,
    some "tonne", some (911/1000)⟩]

/-- A concrete waste table (DB2 Sheet2) with one board row. -/
def cWaste : List Record :=
  [⟨some "Waste", some "Board packaging", none, some "tonne", some (21/20)⟩]

/-- A concrete delivery-modes table (DB2 Sheet3) with one road row. -/
def cModes : List Record :=
  [⟨some "Road", some "Vans", some "Class I", some "tonne.km", some (3/10)⟩]

/-- A concrete EmissionCalculator table state. -/
def concreteCalc : Calc := ⟨[], cMaterials, cWaste, cModes⟩

/-- One concrete input route segment. -/
def oneSeg : SegIn := ⟨(0, 0), (0, 1), "road"⟩

/-- The EmissionResult of the empty-segment concrete run, computed
from concreteCalc at weight 100 and material cardboard. -/
def emptyRunResult : EmissionResult :=
  { segments := [], material := "cardboard",
    co2e := 1961/100000,
    breakdown := { transport := 0, packaging := 911/100000, waste := 21/2000 },
    total_distance := 0, total_time := 0,
    box_info := none, loading_info := [] }

/-- The C9 box of the spec: 0.6 by 0.4 by 0.4 meters. -/
def c9box : BoxDimensions := ⟨3/5, 2/5, 2/5, 12/125⟩

/-- The interior dimensions of Van - Class I. -/
def vanIdims : Dims := ⟨5/2, 17/10, 7/5⟩

/-- Road van table on which the spec weight-class thresholds are
refutable: Class I has the lowest factor. -/
def c5modes : List Record :=
  [⟨some "Road", some "Van - Class I", none, some "km", some (1/10)⟩,
   ⟨some "Road", some "Van - Class II", none, some "km", some (1/5)⟩,
   ⟨some "Road", some "Van - Class III", none, some "km", some (3/10)⟩]

/-- Road table whose single candidate has a non-numeric factor. -/
def c6modes : List Record :=
  [⟨some "Road", some "HGV", none, some "km", none⟩]

/-- Rail-only table: filtering it for road yields no candidate. -/
def cRailOnly : List Record :=
  [⟨some "Rail", some "Freight train", none, some "tonne.km", some (1/40)⟩]

/-- First record of the two-candidate road table. -/
def cTwoRoadA : Record := ⟨some "Road", some "HGV rigid", none, some "km", some 5⟩

/-- Second record of the two-candidate road table, with the smaller
factor. -/
def cTwoRoadB : Record :=
  ⟨some "Road", some "HGV articulated", none, some "km", some 3⟩

/-- Road table with two numeric candidates, the second one smaller. -/
def cTwoRoad : List Record := [cTwoRoadA, cTwoRoadB]

instance {ε α : Type} [DecidableEq ε] [DecidableEq α] :
    DecidableEq (Except ε α) := fun a b =>
  match a, b with
  | .ok x, .ok y =>
    if h : x = y then isTrue (by rw [h])
    else isFalse (fun hc => h (Except.ok.inj hc))
  | .error x, .error y =>
    if h : x = y then isTrue (by rw [h])
    else isFalse (fun hc => h (Except.error.inj hc))
  | .ok _, .error _ => isFalse (fun hc => Except.noConfusion hc)
  | .error _, .ok _ => isFalse (fun hc => Except.noConfusion hc)

/-! Helper lemmas about the embedding. -/

/-- The keyword check of the call at core.py lines 188-193 always
fails: the call passes mode, which the callee does not accept. -/
theorem checkKwargs_multi_modal :
    checkKwargs transport_emissions_params multi_modal_transport_kwargs =
      .error (.typeError ("got an unexpected keyword argument " ++ "mode")) := by
  with_unfolding_all rfl

/-- Every iteration of the segment loop raises. -/
theorem processSegment_err (c : Calc) (dist : Coord → Coord → ℚ) (w : ℚ)
    (acc : LoopAcc) (seg : SegIn) :
    ∃ e, processSegment c dist w acc seg = .error e := by
  simp only [processSegment]
  cases h : select_best_vehicle c.delivery_modes
      (dist seg.origin seg.destination) w seg.mode with
  | error e => exact ⟨e, rfl⟩
  | ok v =>
    exact ⟨.typeError ("got an unexpected keyword argument " ++ "mode"),
      by rw [checkKwargs_multi_modal]⟩

/-- The segment loop raises on any non-empty segment list. -/
theorem segLoop_cons_err (c : Calc) (dist : Coord → Coord → ℚ) (w : ℚ)
    (acc : LoopAcc) (s : SegIn) (rest : List SegIn) :
    ∃ e, segLoop c dist w acc (s :: rest) = .error e := by
  obtain ⟨e, he⟩ := processSegment_err c dist w acc s
  exact ⟨e, by simp only [segLoop, he]⟩

/-- calculate_multi_modal_emissions raises for every non-empty route
segment list. -/
theorem mm_cons_err (c : Calc) (dist : Coord → Coord → ℚ) (w : ℚ)
    (m : String) (bd : Option BoxDimsIn) (s : SegIn) (rest : List SegIn) :
    ∃ e, calculate_multi_modal_emissions c dist (s :: rest) w m bd =
      .error e := by
  obtain ⟨e, he⟩ := segLoop_cons_err c dist w initAcc s rest
  exact ⟨e, by simp only [calculate_multi_modal_emissions, he]⟩

/-- infLe is reflexive. -/
theorem infLe_refl (a : Option ℚ) : infLe a a = true := by
  cases a <;> simp [infLe]

/-- infLe is total. -/
theorem infLe_total (a b : Option ℚ) :
    infLe a b = true ∨ infLe b a = true := by
  cases a <;> cases b <;> simp [infLe]
  exact le_total _ _

/-- infLe is transitive. -/
theorem infLe_trans {a b c : Option ℚ} (h1 : infLe a b = true)
    (h2 : infLe b c = true) : infLe a c = true := by
  cases a <;> cases b <;> cases c <;> simp [infLe] at h1 h2 ⊢
  exact le_trans h1 h2

/-- Unfolding the idxmin fold one step. -/
theorem pickMin_cons (b x : Record) (l : List Record) :
    pickMin b (x :: l) =
      pickMin (if infLe (ghgNumeric b) (ghgNumeric x) then b else x) l := rfl

/-- The idxmin fold result never exceeds its seed. -/
theorem pickMin_le_seed (l : List Record) :
    ∀ b, infLe (ghgNumeric (pickMin b l)) (ghgNumeric b) = true := by
  induction l with
  | nil => intro b; exact infLe_refl _
  | cons x xs ih =>
    intro b
    rw [pickMin_cons]
    by_cases h : infLe (ghgNumeric b) (ghgNumeric x) = true
    · rw [if_pos h]; exact ih b
    · rw [if_neg h]
      have hxb : infLe (ghgNumeric x) (ghgNumeric b) = true :=
        (infLe_total _ _).resolve_left h
      exact infLe_trans (ih x) hxb

/-- The idxmin fold result never exceeds any list element. -/
theorem pickMin_le_mem (l : List Record) :
    ∀ b y, y ∈ l → infLe (ghgNumeric (pickMin b l)) (ghgNumeric y) = true := by
  induction l with
  | nil => intro b y hy; exact absurd hy (List.not_mem_nil y)
  | cons x xs ih =>
    intro b y hy
    rw [pickMin_cons]
    rcases List.mem_cons.mp hy with hyx | hyxs
    · subst hyx
      by_cases h : infLe (ghgNumeric b) (ghgNumeric y) = true
      · rw [if_pos h]; exact infLe_trans (pickMin_le_seed xs b) h
      · rw [if_neg h]; exact pickMin_le_seed xs y
    · by_cases h : infLe (ghgNumeric b) (ghgNumeric x) = true
      · rw [if_pos h]; exact ih b y hyxs
      · rw [if_neg h]; exact ih x y hyxs

/-- First record of a list whose factor is at most m; applied with m
the minimum factor, this is the first record attaining the minimum. -/
def firstAtMin (m : Option ℚ) : List Record → Option Record
  | [] => none
  | r :: rs => if infLe (ghgNumeric r) m then some r else firstAtMin m rs

/-- The idxmin fold result is the first element of the seeded list
attaining the minimum factor value. -/
theorem pickMin_first (l : List Record) :
    ∀ b, firstAtMin (ghgNumeric (pickMin b l)) (b :: l) =
      some (pickMin b l) := by
  induction l with
  | nil =>
    intro b
    show (if infLe (ghgNumeric b) (ghgNumeric (pickMin b [])) then some b
          else firstAtMin (ghgNumeric (pickMin b [])) []) = some (pickMin b [])
    rw [show pickMin b [] = b from rfl, if_pos (infLe_refl _)]
  | cons x xs ih =>
    intro b
    rw [pickMin_cons]
    by_cases h : infLe (ghgNumeric b) (ghgNumeric x) = true
    · rw [if_pos h]
      have ihb := ih b
      by_cases hb : infLe (ghgNumeric b) (ghgNumeric (pickMin b xs)) = true
      · have h1 : firstAtMin (ghgNumeric (pickMin b xs)) (b :: xs) = some b := by
          show (if infLe (ghgNumeric b) (ghgNumeric (pickMin b xs)) then some b
                else firstAtMin (ghgNumeric (pickMin b xs)) xs) = some b
          rw [if_pos hb]
        have hbm : b = pickMin b xs := Option.some.inj (h1 ▸ ihb)
        show (if infLe (ghgNumeric b) (ghgNumeric (pickMin b xs)) then some b
              else firstAtMin (ghgNumeric (pickMin b xs)) (x :: xs)) =
          some (pickMin b xs)
        rw [if_pos hb, ← hbm]
      · have hxm : ¬ infLe (ghgNumeric x) (ghgNumeric (pickMin b xs)) = true :=
          fun hpx => hb (infLe_trans h hpx)
        have h1 : firstAtMin (ghgNumeric (pickMin b xs)) xs =
            some (pickMin b xs) := by
          have h2 : firstAtMin (ghgNumeric (pickMin b xs)) (b :: xs) =
              firstAtMin (ghgNumeric (pickMin b xs)) xs := by
            show (if infLe (ghgNumeric b) (ghgNumeric (pickMin b xs)) then some b
                  else firstAtMin (ghgNumeric (pickMin b xs)) xs) = _
            rw [if_neg hb]
          rw [← h2]
          exact ihb
        show (if infLe (ghgNumeric b) (ghgNumeric (pickMin b xs)) then some b
              else if infLe (ghgNumeric x) (ghgNumeric (pickMin b xs)) then some x
              else firstAtMin (ghgNumeric (pickMin b xs)) xs) =
          some (pickMin b xs)
        rw [if_neg hb, if_neg hxm]
        exact h1
    · rw [if_neg h]
      have hbm : ¬ infLe (ghgNumeric b) (ghgNumeric (pickMin x xs)) = true :=
        fun hpb => h (infLe_trans hpb (pickMin_le_seed xs x))
      show (if infLe (ghgNumeric b) (ghgNumeric (pickMin x xs)) then some b
            else firstAtMin (ghgNumeric (pickMin x xs)) (x :: xs)) =
        some (pickMin x xs)
      rw [if_neg hbm]
      exact ih x

/-- Whether packaging-emission computation succeeds does not depend on
the weight: every failure happens before weight is used. -/
theorem pack_isOk_weight_indep (c : Calc) (m : String) (w w' : ℚ) :
    isOkE (_calculate_packaging_emissions c w m) =
      isOkE (_calculate_packaging_emissions c w' m) := by
  simp only [_calculate_packaging_emissions]
  cases hf : c.materials.filter (fun r =>
      containsCI r.level2 (_get_standardized_material m) ||
      containsCI r.level3 (_get_standardized_material m)) with
  | nil => rfl
  | cons md tl =>
    cases hg : md.ghg2024 <;> simp [isOkE, hg]

/-- Whether waste-emission computation succeeds does not depend on the
weight. -/
theorem waste_isOk_weight_indep (c : Calc) (m : String) (w w' : ℚ) :
    isOkE (_calculate_waste_emissions c w m) =
      isOkE (_calculate_waste_emissions c w' m) := by
  simp only [_calculate_waste_emissions]
  cases hf : c.materials.filter (fun r =>
      containsCI r.level2 (_get_standardized_material m) ||
      containsCI r.level3 (_get_standardized_material m)) with
  | nil => rfl
  | cons md tl =>
    cases hwd : (if (c.waste_methods.filter (fun r =>
        containsCI r.level2 "Paper" || containsCI r.level2 "Board" ||
        containsCI r.level3 "Paper" || containsCI r.level3 "Board")).isEmpty
      then c.waste_methods.filter (fun r =>
        containsCI r.level2 "Waste" || containsCI r.level2 "Disposal")
      else c.waste_methods.filter (fun r =>
        containsCI r.level2 "Paper" || containsCI r.level2 "Board" ||
        containsCI r.level3 "Paper" || containsCI r.level3 "Board")) with
    | nil => simp [isOkE, hwd]
    | cons wd tl2 =>
      cases hg : wd.ghg2024 <;> simp [isOkE, hwd, hg]

/-- Whether a multi-modal calculation succeeds does not depend on the
weight: no entry point inspects the weight before computing. -/
theorem mm_isOk_weight_indep (c : Calc) (dist : Coord → Coord → ℚ)
    (segs : List SegIn) (w : ℚ) (m : String) (bd : Option BoxDimsIn) :
    isOkE (calculate_multi_modal_emissions c dist segs w m bd) =
      isOkE (calculate_multi_modal_emissions c dist segs 1 m bd) := by
  cases segs with
  | cons s rest =>
    obtain ⟨e1, h1⟩ := mm_cons_err c dist w m bd s rest
    obtain ⟨e2, h2⟩ := mm_cons_err c dist 1 m bd s rest
    rw [h1, h2]
    rfl
  | nil =>
    unfold calculate_multi_modal_emissions
    simp only [segLoop]
    have hp := pack_isOk_weight_indep c m w 1
    cases h1 : _calculate_packaging_emissions c w m with
    | error e1 =>
      cases h2 : _calculate_packaging_emissions c 1 m with
      | error e2 => rfl
      | ok p2 => rw [h1, h2] at hp; simp [isOkE] at hp
    | ok p1 =>
      cases h2 : _calculate_packaging_emissions c 1 m with
      | error e2 => rw [h1, h2] at hp; simp [isOkE] at hp
      | ok p2 =>
        have hw := waste_isOk_weight_indep c m w 1
        cases h3 : _calculate_waste_emissions c w m with
        | error e3 =>
          cases h4 : _calculate_waste_emissions c 1 m with
          | error e4 => rfl
          | ok w4 => rw [h3, h4] at hw; simp [isOkE] at hw
        | ok w3 =>
          cases h4 : _calculate_waste_emissions c 1 m with
          | error e4 => rw [h3, h4] at hw; simp [isOkE] at hw
          | ok w4 =>
            cases h5 : boxPart initAcc.segments bd with
            | error e5 => rfl
            | ok pair => rfl

/-- Python int() truncation agrees with the floor on non-negative
values. -/
theorem pyInt_eq_floor {q : ℚ} (h : 0 ≤ q) : pyInt q = ⌊q⌋ := if_pos h

/-- Every vehicle profile in the fixed table has strictly positive
interior dimensions. -/
theorem dims_of_lookup {vt : String} {dims : Dims}
    (h : vehicle_dimensions.lookup vt = some dims) :
    0 < dims.length ∧ 0 < dims.width ∧ 0 < dims.height := by
  obtain ⟨l1, l2, hl, -⟩ := List.lookup_eq_some_iff.mp h
  have hmem : (vt, dims) ∈ vehicle_dimensions := by
    rw [hl]
    exact List.mem_append_right _ (List.mem_cons_self _ _)
  fin_cases hmem <;> norm_num

end CarbonMVP

namespace CarbonMVP

/-! Claim theorems. -/

/-- Claim C1: a call to calculate_multi_modal_emissions with a
non-empty route_segments list never returns an EmissionResult: after
per-segment distance computation and vehicle selection, the internal
call to _calculate_transport_emissions passes the keyword argument
mode, which that function does not accept, so the call raises for
every non-empty segment list and only an empty segment list can
complete successfully. -/
theorem multi_modal_nonempty_never_ok (c : Calc)
    (dist : Coord → Coord → ℚ) (route_segments : List SegIn) (w : ℚ)
    (m : String) (bd : Option BoxDimsIn) (h : route_segments ≠ []) :
    isOkE (calculate_multi_modal_emissions c dist route_segments w m bd) =
      false := by
  cases route_segments with
  | nil => exact absurd rfl h
  | cons s rest =>
    obtain ⟨e, he⟩ := mm_cons_err c dist w m bd s rest
    rw [he]
    rfl

/-- Witness for C1: the segment list containing oneSeg is non-empty,
and the corresponding concrete call does not return normally. -/
theorem multi_modal_nonempty_never_ok_witness :
    ([oneSeg] ≠ ([] : List SegIn)) ∧
    isOkE (calculate_multi_modal_emissions concreteCalc dist100 [oneSeg]
      100 "cardboard" none) = false :=
  ⟨List.cons_ne_nil _ _,
   multi_modal_nonempty_never_ok concreteCalc dist100 [oneSeg] 100
     "cardboard" none (List.cons_ne_nil _ _)⟩

/-- Claim C2 (code bug evaluation): the EmissionCalculator class
defines neither calculate_emissions nor calculate, so the attribute
access performed by the CLI and chatbot front-ends raises
AttributeError instead of reaching any single-segment calculation. -/
theorem calculate_emissions_method_missing :
    front_end_calculate_call =
      .error (.attributeError
        "EmissionCalculator object has no attribute calculate_emissions") ∧
    emission_calculator_methods.contains "calculate_emissions" = false ∧
    emission_calculator_methods.contains "calculate" = false :=
  ⟨by with_unfolding_all rfl, by with_unfolding_all rfl,
   by with_unfolding_all rfl⟩

/-- Counterexample to C3: a call with weight -1 (which is not
positive) into generate_route_options completes normally instead of
failing with an InvalidInput error. -/
theorem weight_leq_zero_accepted :
    ((-1 : ℚ) < 0) ∧
    isOkE (generate_route_options dist100 (0, 0) (0, 1) (-1)) = true :=
  ⟨by norm_num, by with_unfolding_all rfl⟩

/-- Claim C5 counterexample: with a road table whose Van - Class I row
has the lowest factor, a 1741 kg shipment selects Van - Class I, not
Van - Class III as the claimed weight-class thresholds require, and a
1305 kg shipment selects exactly the same vehicle. -/
theorem van_weight_class_counterexample :
    select_best_vehicle c5modes 100 1741 "road" =
      .ok (some "Van - Class I") ∧
    select_best_vehicle c5modes 100 1741 "road" ≠
      .ok (some "Van - Class III") ∧
    select_best_vehicle c5modes 100 1305 "road" =
      select_best_vehicle c5modes 100 1741 "road" :=
  ⟨by with_unfolding_all rfl, by with_unfolding_all decide, rfl⟩

/-- Claim C5 as amended: _select_best_vehicle applies no weight-class
restriction at all; its result is independent of both the weight and
the distance argument, so every weight selects the same vehicle. -/
theorem vehicle_selection_weight_independent (table : List Record)
    (d d' w w' : ℚ) (mode : String) :
    select_best_vehicle table d w mode =
      select_best_vehicle table d' w' mode := rfl

/-- Claim C9 counterexample: the utilization for the spec example box
in Van - Class I is 9216/119, which exceeds 77 percent, refuting the
claimed approximately 69.6 percent. -/
theorem box_loading_utilization_counterexample :
    calculate_box_loading c9box (some "Van - Class I") =
      .ok ⟨48, 4, 4, 3, 9216/119, 671/500⟩ ∧
    ¬ ((9216 : ℚ)/119 < 71) :=
  ⟨by with_unfolding_all rfl, by norm_num⟩

/-- Claim C9 as amended: box 0.6 by 0.4 by 0.4 m in Van - Class I
gives rows 4, columns 4, layers 3, total 48, and utilization
48 times 0.096 divided by the interior volume, times 100, which is
between 77 and 78 percent (approximately 77.4, not 69.6). -/
theorem box_loading_example_values :
    calculate_box_loading c9box (some "Van - Class I") =
      .ok ⟨48, 4, 4, 3, 9216/119, 671/500⟩ ∧
    (9216 : ℚ)/119 = 48 * (12/125) / (5/2 * (17/10) * (7/5)) * 100 ∧
    77 < (9216 : ℚ)/119 ∧ (9216 : ℚ)/119 < 78 :=
  ⟨by with_unfolding_all rfl, by norm_num, by norm_num, by norm_num⟩

/-- Claim C6 counterexample: with a road table whose single candidate
has a missing (non-numeric) factor, selection returns that candidate
instead of failing, refuting the claim that an all-infinite candidate
set fails with NoCandidate. -/
theorem all_infinite_factors_counterexample :
    (∀ r ∈ c6modes, ghgNumeric r = none) ∧
    select_best_vehicle c6modes 100 500 "road" = .ok (some "HGV") :=
  ⟨by intro r hr; fin_cases hr; rfl, by with_unfolding_all rfl⟩

/-- Claim C6 as amended: for every mode in the mode mapping, vehicle
selection treats a missing or non-numeric factor as positive infinity,
returns the Level 2 name of the candidate with the minimum factor,
breaking ties by the first record in stored table order, and fails
with a ValueError when the candidate set is empty; when all candidates
are infinite the first record in stored order is returned rather than
a failure being raised. -/
theorem select_best_vehicle_min_first (table : List Record) (d w : ℚ)
    (mode pat : String) (hmap : mode_mapping.lookup mode = some pat) :
    (table.filter (fun r => containsCI r.level1 pat) = [] →
      select_best_vehicle table d w mode =
        .error (.valueError ("No vehicles found for mode: " ++ mode))) ∧
    (∀ r rs, table.filter (fun r => containsCI r.level1 pat) = r :: rs →
      ∃ b, select_best_vehicle table d w mode = .ok b.level2 ∧
        (∀ y ∈ r :: rs, infLe (ghgNumeric b) (ghgNumeric y) = true) ∧
        firstAtMin (ghgNumeric b) (r :: rs) = some b) := by
  constructor
  · intro hf
    simp only [select_best_vehicle, hmap, hf]
  · intro r rs hf
    refine ⟨pickMin r rs, ?_, ?_, pickMin_first rs r⟩
    · simp only [select_best_vehicle, hmap, hf]
    · intro y hy
      rcases List.mem_cons.mp hy with hyr | hyrs
      · rw [hyr]
        exact pickMin_le_seed rs r
      · exact pickMin_le_mem rs r y hyrs

/-- Witness for C6: concrete applications of both branches, on a table
with no road candidate and on a table with two road candidates of
which the second has the smaller factor. -/
theorem select_best_vehicle_min_first_witness :
    (select_best_vehicle cRailOnly 1 1 "road" =
      .error (.valueError ("No vehicles found for mode: " ++ "road"))) ∧
    (∃ b, select_best_vehicle cTwoRoad 2 3 "road" = .ok b.level2 ∧
      (∀ y ∈ cTwoRoadA :: [cTwoRoadB],
        infLe (ghgNumeric b) (ghgNumeric y) = true) ∧
      firstAtMin (ghgNumeric b) (cTwoRoadA :: [cTwoRoadB]) = some b) :=
  ⟨(select_best_vehicle_min_first cRailOnly 1 1 "road" "Road"
      (by with_unfolding_all rfl)).1 (by with_unfolding_all rfl),
   (select_best_vehicle_min_first cTwoRoad 2 3 "road" "Road"
      (by with_unfolding_all rfl)).2 cTwoRoadA [cTwoRoadB]
      (by with_unfolding_all rfl)⟩

/-- Claim C4: whenever calculate_multi_modal_emissions returns an
EmissionResult, the breakdown exposes the transport, packaging and
waste components separately and their exact sum equals the returned
co2e total. -/
theorem breakdown_sums_to_co2e (c : Calc) (dist : Coord → Coord → ℚ)
    (segs : List SegIn) (w : ℚ) (m : String) (bd : Option BoxDimsIn)
    (r : EmissionResult)
    (h : calculate_multi_modal_emissions c dist segs w m bd = .ok r) :
    r.breakdown.transport + r.breakdown.packaging + r.breakdown.waste =
      r.co2e := by
  unfold calculate_multi_modal_emissions at h
  repeat' split at h
  all_goals first
    | exact Except.noConfusion h
    | (injection h with h2; subst h2; rfl)

/-- Witness for C4: the concrete empty-segment run returns
emptyRunResult, whose breakdown components sum to its co2e. -/
theorem breakdown_sums_to_co2e_witness :
    calculate_multi_modal_emissions concreteCalc dist100 [] 100
      "cardboard" none = .ok emptyRunResult ∧
    emptyRunResult.breakdown.transport + emptyRunResult.breakdown.packaging +
      emptyRunResult.breakdown.waste = emptyRunResult.co2e := by
  have h : calculate_multi_modal_emissions concreteCalc dist100 [] 100
      "cardboard" none = .ok emptyRunResult := by with_unfolding_all rfl
  exact ⟨h, breakdown_sums_to_co2e concreteCalc dist100 [] 100 "cardboard"
    none emptyRunResult h⟩

/-- Claim C7: whenever calculate_multi_modal_emissions returns, its
total_distance is the sum of the per-segment distances and its
total_time is the sum of per-segment distance over the fixed mode
speed (road 60, rail 80, sea 30, air 800 km per hour). -/
theorem totals_sum_over_segments (c : Calc) (dist : Coord → Coord → ℚ)
    (segs : List SegIn) (w : ℚ) (m : String) (bd : Option BoxDimsIn)
    (r : EmissionResult)
    (h : calculate_multi_modal_emissions c dist segs w m bd = .ok r) :
    r.total_distance =
      (segs.map (fun s => dist s.origin s.destination)).sum ∧
    r.total_time =
      (segs.map (fun s =>
        dist s.origin s.destination / nominal_speed s.mode)).sum := by
  cases segs with
  | cons s rest =>
    obtain ⟨e, he⟩ := mm_cons_err c dist w m bd s rest
    rw [he] at h
    exact Except.noConfusion h
  | nil =>
    simp only [List.map_nil, List.sum_nil]
    unfold calculate_multi_modal_emissions at h
    simp only [segLoop] at h
    repeat' split at h
    all_goals first
      | exact Except.noConfusion h
      | (injection h with h2; subst h2; exact ⟨rfl, rfl⟩)

/-- Witness for C7: the concrete empty-segment run returns
emptyRunResult, whose totals are the empty sums. -/
theorem totals_sum_over_segments_witness :
    calculate_multi_modal_emissions concreteCalc dist100 [] 100
      "cardboard" none = .ok emptyRunResult ∧
    emptyRunResult.total_distance =
      (([] : List SegIn).map (fun s => dist100 s.origin s.destination)).sum ∧
    emptyRunResult.total_time =
      (([] : List SegIn).map (fun s =>
        dist100 s.origin s.destination / nominal_speed s.mode)).sum := by
  have h : calculate_multi_modal_emissions concreteCalc dist100 [] 100
      "cardboard" none = .ok emptyRunResult := by with_unfolding_all rfl
  exact ⟨h, totals_sum_over_segments concreteCalc dist100 [] 100 "cardboard"
    none emptyRunResult h⟩

/-- Claim C3 as amended: no entry point validates the weight.
generate_route_options ignores weight entirely, and whether
calculate_multi_modal_emissions succeeds is independent of weight, so
a call with weight at most 0 proceeds with the computation instead of
failing with an InvalidInput error (calculate_box_loading takes no
weight at all, and the single-segment calculate does not exist on the
class). -/
theorem no_weight_validation :
    (∀ (dist : Coord → Coord → ℚ) (o d : Coord) (w w' : ℚ),
      generate_route_options dist o d w = generate_route_options dist o d w') ∧
    (∀ (c : Calc) (dist : Coord → Coord → ℚ) (segs : List SegIn) (w : ℚ)
      (m : String) (bd : Option BoxDimsIn),
      isOkE (calculate_multi_modal_emissions c dist segs w m bd) =
        isOkE (calculate_multi_modal_emissions c dist segs 1 m bd)) :=
  ⟨fun _ _ _ _ _ => rfl, mm_isOk_weight_indep⟩

/-- Claim C8: for a box with strictly positive sides and a vehicle
type known to the profile table, calculate_box_loading returns the
floor counts per axis, total equal to their product, and a zero
per-axis count yields total 0 and utilization 0 with no error. -/
theorem box_loading_floor_counts (b : BoxDimensions) (vt : String)
    (dims : Dims) (hL : 0 < b.length) (hW : 0 < b.width) (hH : 0 < b.height)
    (hlook : vehicle_dimensions.lookup vt = some dims) :
    ∃ lc, calculate_box_loading b (some vt) = .ok lc ∧
      lc.rows = ⌊dims.width / b.width⌋ ∧
      lc.columns = ⌊dims.length / b.length⌋ ∧
      lc.layers = ⌊dims.height / b.height⌋ ∧
      lc.total_boxes = lc.rows * lc.columns * lc.layers ∧
      ((lc.rows = 0 ∨ lc.columns = 0 ∨ lc.layers = 0) →
        lc.total_boxes = 0 ∧ lc.utilization_percentage = 0) := by
  obtain ⟨hdL, hdW, hdH⟩ := dims_of_lookup hlook
  have hvol : ¬ (dims.length * dims.width * dims.height = 0) := by positivity
  have hdg : dictGetDims (some vt) = .ok dims := by
    simp only [dictGetDims, hlook]
  refine ⟨{ total_boxes := pyInt (dims.width / b.width) *
              pyInt (dims.length / b.length) * pyInt (dims.height / b.height),
            rows := pyInt (dims.width / b.width),
            columns := pyInt (dims.length / b.length),
            layers := pyInt (dims.height / b.height),
            utilization_percentage :=
              ((pyInt (dims.width / b.width) * pyInt (dims.length / b.length) *
                pyInt (dims.height / b.height) : ℤ) : ℚ) * b.volume /
                (dims.length * dims.width * dims.height) * 100,
            remaining_space := dims.length * dims.width * dims.height -
              ((pyInt (dims.width / b.width) * pyInt (dims.length / b.length) *
                pyInt (dims.height / b.height) : ℤ) : ℚ) * b.volume },
    ?_, ?_, ?_, ?_, rfl, ?_⟩
  · simp only [calculate_box_loading, hdg, pyDiv, if_neg hW.ne', if_neg hL.ne',
      if_neg hH.ne', if_neg hvol]
  · exact pyInt_eq_floor (div_nonneg hdW.le hW.le)
  · exact pyInt_eq_floor (div_nonneg hdL.le hL.le)
  · exact pyInt_eq_floor (div_nonneg hdH.le hH.le)
  · intro h0
    have htot : pyInt (dims.width / b.width) * pyInt (dims.length / b.length) *
        pyInt (dims.height / b.height) = 0 := by
      rcases h0 with h | h | h <;> simp only at h <;> simp [h]
    constructor
    · exact htot
    · simp only [htot]
      push_cast
      ring

/-- Witness for C8: the theorem applied to the spec example box and
Van - Class I. -/
theorem box_loading_floor_counts_witness :
    ((0 : ℚ) < c9box.length ∧ (0 : ℚ) < c9box.width ∧ (0 : ℚ) < c9box.height) ∧
    (∃ lc, calculate_box_loading c9box (some "Van - Class I") = .ok lc ∧
      lc.rows = ⌊vanIdims.width / c9box.width⌋ ∧
      lc.columns = ⌊vanIdims.length / c9box.length⌋ ∧
      lc.layers = ⌊vanIdims.height / c9box.height⌋ ∧
      lc.total_boxes = lc.rows * lc.columns * lc.layers ∧
      ((lc.rows = 0 ∨ lc.columns = 0 ∨ lc.layers = 0) →
        lc.total_boxes = 0 ∧ lc.utilization_percentage = 0)) :=
  ⟨⟨by norm_num [c9box], by norm_num [c9box], by norm_num [c9box]⟩,
   box_loading_floor_counts c9box "Van - Class I" vanIdims
     (by norm_num [c9box]) (by norm_num [c9box]) (by norm_num [c9box])
     (by with_unfolding_all rfl)⟩

/-- Claim C10 (code bug evaluation): the nearest-port and
nearest-airport helpers are unimplemented stubs returning None; the
geodesic distance normalizes a None waypoint to the null-island
coordinate (0, 0), so a long-distance generate_route_options call
completes normally with the None waypoints silently carried into the
eco-route segments instead of surfacing a clear lookup failure. -/
theorem route_options_silent_null_island :
    (∀ (dist : Coord → Coord → ℚ) (a : Coord),
      geodesicE dist (some a) none = .ok (dist a (0, 0))) ∧
    _find_nearest_port (0, 0) = none ∧
    _find_nearest_airport (0, 0) = none ∧
    isOkE (generate_route_options dist1000 (0, 0) (10, 10) 100) = true ∧
    (generate_route_options dist1000 (0, 0) (10, 10) 100).map
      (fun ro => ro.eco.segments.map (fun s => s.destination)) =
      .ok [none, none, some (10, 10)] :=
  ⟨fun _ _ => rfl, rfl, rfl, by with_unfolding_all rfl,
   by with_unfolding_all rfl⟩

end CarbonMVP
